import Mathlib

/-!
# Configuration resolution engine of `graphile-migrate` (`src/commands/_common.ts`)

Shallow embedding of the configuration-resolution layer: `exists`,
`getSettingsFromJSON`, `getSettings` (with its inner `tryRequire`),
and `getDatabaseName`.

Effects are modelled by an explicit environment `Env` carrying the outcome of
every external operation (filesystem probe, file read, JSON5 parse, dynamic
import, path resolution), and every run of the resolver also produces a trace
of the probe/load events it performed, so that ordering and "never probed /
never loaded" properties are statable.
-/

namespace Migrate

/-- A JavaScript value thrown by a dynamic `import(...)`, as the `catch`
block in `tryRequire` observes it: either an `Error` whose `stack` property
is truthy (carrying that stack string), or anything else (carrying the text
`String(e)` would produce). -/
inductive Thrown where
  | errWithStack (stack : String) : Thrown
  | other (text : String) : Thrown
deriving DecidableEq, Repr

/-- Environment of external collaborators for the resolver, over an opaque
settings type `S`. Each field records the outcome the corresponding external
operation would produce for a given argument.

* `cwd` — the value of `process.cwd()`.
* `fsExists` — result of the existence probe `exists` (which, in the source,
  swallows every access failure into `false`).
* `readFile` — `fs.readFile(path, "utf8")`: file contents, or the cause text
  (`e.message` / `String(e)`) of the I/O error.
* `json5Parse` — `JSON5.parse(data)`: parsed settings value, or the cause
  text of the parse error.
* `importMod` — `await import(ref)` keyed by the resolved `file://` reference:
  on success, the module's default export (`none` models a default export
  that resolves to `undefined`); on failure, the thrown value.
* `resolvePath` — Node's `path.resolve(cwd, path)`.
* `pathToFileURL` — Node's `pathToFileURL(abs).href`. -/
structure Env (S : Type) where
  cwd : String
  fsExists : String → Bool
  readFile : String → Except String String
  json5Parse : String → Except String S
  importMod : String → Except Thrown (Option S)
  resolvePath : String → String → String
  pathToFileURL : String → String

/-- Trace events: one `probe` per call to the existence probe, one `loadData`
per invocation of the Relaxed-Data Loader (`getSettingsFromJSON`), one
`loadDyn` per dynamic `import(...)` executed by `tryRequire`. -/
inductive Ev where
  | probe (path : String) : Ev
  | loadData (path : String) : Ev
  | loadDyn (ref : String) : Ev
deriving DecidableEq, Repr

/-- Constant `DEFAULT_GMRC_PATH` from the source: the string
`${process.cwd()}/.gmrc`. -/
def DEFAULT_GMRC_PATH (cwd : String) : String := cwd ++ "/.gmrc"

/-- Constant `DEFAULT_GMRCJS_PATH` from the source: `${DEFAULT_GMRC_PATH}.js`. -/
def DEFAULT_GMRCJS_PATH (cwd : String) : String := DEFAULT_GMRC_PATH cwd ++ ".js"

/-- Constant `DEFAULT_GMRC_COMMONJS_PATH` from the source:
`${DEFAULT_GMRC_PATH}.cjs`. -/
def DEFAULT_GMRC_COMMONJS_PATH (cwd : String) : String :=
  DEFAULT_GMRC_PATH cwd ++ ".cjs"

/-- JavaScript's `String.prototype.endsWith(suffix)` (no position argument):
true iff `suffix` is a suffix of the receiver. Modelled at the level of
character lists. -/
def jsEndsWith (s suffix : String) : Bool :=
  List.isSuffixOf suffix.data s.data

/-- The condition `configFile.endsWith(".js") || configFile.endsWith(".cjs")
|| configFile.endsWith(".mjs")` that selects the Dynamic Module Loader for an
explicit config file. -/
def codeSuffixed (cf : String) : Bool :=
  jsEndsWith cf ".js" || jsEndsWith cf ".cjs" || jsEndsWith cf ".mjs"

/-- A string is an upper- or mixed-case variant of `suf` when lowercasing its
characters yields `suf` but the string itself differs from `suf`. -/
def upperVariantOf (v suf : String) : Prop :=
  v.data.map Char.toLower = suf.data ∧ v ≠ suf

/-- The message template `Failed to read '${path}': ${cause}` of
`getSettingsFromJSON`. -/
def readErrMsg (path cause : String) : String :=
  "Failed to read '" ++ path ++ "': " ++ cause

/-- The message template `Failed to parse '${path}': ${cause}` of
`getSettingsFromJSON`. -/
def parseErrMsg (path cause : String) : String :=
  "Failed to parse '" ++ path ++ "': " ++ cause

/-- The message `Failed to import '${configFile}': file not found` emitted by
`getSettings` when the explicit config file fails the existence probe. -/
def notFoundMsg (configFile : String) : String :=
  "Failed to import '" ++ configFile ++ "': file not found"

/-- The fixed message thrown by `getSettings` when no explicit path is given
and none of the three default locations exist. -/
def noGmrcMsg : String :=
  "No .gmrc file found; please run `graphile-migrate init` first."

/-- The expression `s.replace(/\n/g, "\n    ")` from the source: global
replacement of every newline by a newline followed by four spaces. -/
def replaceNewlines (s : String) : String :=
  String.mk (s.data.flatMap fun c =>
    if c = '\n' then ['\n', ' ', ' ', ' ', ' '] else [c])

/-- The cause text interpolated into `tryRequire`'s error message:
`e instanceof Error && e.stack ? e.stack.replace(/\n/g, "\n    ") : String(e)`. -/
def causeText : Thrown → String
  | .errWithStack stack => replaceNewlines stack
  | .other text => text

/-- The message template
`Failed to import '${relativePath}'; error:\n    ${...}` of `tryRequire`. -/
def importErrMsg (relativePath : String) (e : Thrown) : String :=
  "Failed to import '" ++ relativePath ++ "'; error:\n    " ++ causeText e

/-- The `file://` reference `tryRequire` builds:
`pathToFileURL(resolve(process.cwd(), path)).href`. -/
def refOf {S : Type} (env : Env S) (path : String) : String :=
  env.pathToFileURL (env.resolvePath env.cwd path)

/-- Function `getSettingsFromJSON(path)`: read the file, then parse it as JSON5,
wrapping each failure in its own message template. Returns the parsed value
as-is on success, paired with the trace of the load attempt. -/
def getSettingsFromJSON {S : Type} (env : Env S) (path : String) :
    Except String S × List Ev :=
  match env.readFile path with
  | .error e => (.error (readErrMsg path e), [.loadData path])
  | .ok data =>
    match env.json5Parse data with
    | .error e => (.error (parseErrMsg path e), [.loadData path])
    | .ok v => (.ok v, [.loadData path])

/-- The inner `tryRequire` of `getSettings`: resolve the path to an absolute
`file://` reference (relative to `process.cwd()`, never through Node's
package resolution), dynamically import it and return the module's default
export; wrap any thrown failure in the `Failed to import` template. A default
export that resolves to `undefined` (`none`) is returned as-is. -/
def tryRequire {S : Type} (env : Env S) (path : String) :
    Except String (Option S) × List Ev :=
  match env.importMod (refOf env path) with
  | .ok d => (.ok d, [.loadDyn (refOf env path)])
  | .error e =>
    (.error (importErrMsg (refOf env path) e), [.loadDyn (refOf env path)])

/-- Function `getSettings(options)`: the resolver. `configFile = none` models an absent
`options.configFile` (`configFile != null` fails for both `null` and
`undefined`). A successful result of `none` models the JavaScript value
`undefined`. -/
def getSettings {S : Type} (env : Env S) (configFile : Option String) :
    Except String (Option S) × List Ev :=
  match configFile with
  | some cf =>
    if !(env.fsExists cf) then
      (.error (notFoundMsg cf), [.probe cf])
    else if codeSuffixed cf then
      ((tryRequire env cf).1, .probe cf :: (tryRequire env cf).2)
    else
      ((getSettingsFromJSON env cf).1.map some,
       .probe cf :: (getSettingsFromJSON env cf).2)
  | none =>
    if env.fsExists (DEFAULT_GMRC_PATH env.cwd) then
      ((getSettingsFromJSON env (DEFAULT_GMRC_PATH env.cwd)).1.map some,
       .probe (DEFAULT_GMRC_PATH env.cwd) ::
         (getSettingsFromJSON env (DEFAULT_GMRC_PATH env.cwd)).2)
    else if env.fsExists (DEFAULT_GMRCJS_PATH env.cwd) then
      ((tryRequire env (DEFAULT_GMRCJS_PATH env.cwd)).1,
       .probe (DEFAULT_GMRC_PATH env.cwd) ::
         .probe (DEFAULT_GMRCJS_PATH env.cwd) ::
           (tryRequire env (DEFAULT_GMRCJS_PATH env.cwd)).2)
    else if env.fsExists (DEFAULT_GMRC_COMMONJS_PATH env.cwd) then
      ((tryRequire env (DEFAULT_GMRC_COMMONJS_PATH env.cwd)).1,
       .probe (DEFAULT_GMRC_PATH env.cwd) ::
         .probe (DEFAULT_GMRCJS_PATH env.cwd) ::
           .probe (DEFAULT_GMRC_COMMONJS_PATH env.cwd) ::
             (tryRequire env (DEFAULT_GMRC_COMMONJS_PATH env.cwd)).2)
    else
      (.error noGmrcMsg,
       [.probe (DEFAULT_GMRC_PATH env.cwd),
        .probe (DEFAULT_GMRCJS_PATH env.cwd),
        .probe (DEFAULT_GMRC_COMMONJS_PATH env.cwd)])

/-- JavaScript falsiness of a `string | null | undefined` value, as tested by
`if (!databaseName)`: `null`/`undefined` (`none`) and the empty string are
falsy; every non-empty string is truthy. -/
def jsFalsyStr : Option String → Bool
  | none => true
  | some s => s == ""

/-- Function `getDatabaseName(connectionString)`, parameterised by the `database`
field that `pg-connection-string`'s `parse` extracts (`none` models a
`null`/`undefined` field). -/
def getDatabaseName (pgDatabase : String → Option String)
    (connectionString : String) : Except String String :=
  let databaseName := pgDatabase connectionString
  if jsFalsyStr databaseName then
    .error "Could not determine database name from connection string."
  else
    .ok (databaseName.getD "")

/-- Classifies a trace event as a loader invocation (as opposed to a mere
existence probe). -/
def isLoad : Ev → Bool
  | .probe _ => false
  | .loadData _ => true
  | .loadDyn _ => true

/-! ### Concrete environments used by witnesses -/

/-- A concrete environment over `S = Nat`: the plain default `.gmrc` exists,
as does any path except `missing.js` and `absent`; reading `bad` fails,
reading `weird` yields unparseable content, every other read parses to `7`;
importing `file:///proj/throw.js` throws an `Error` with a two-line stack,
importing `file:///proj/nodef.mjs` yields a module whose default export is
`undefined`, and every other import yields the settings value `5`. -/
def envW : Env Nat :=
  { cwd := "/proj"
    fsExists := fun p => !(p == "missing.js" || p == "absent")
    readFile := fun p =>
      if p == "bad" then .error "EACCES: denied"
      else if p == "weird" then .ok "oops"
      else .ok "{}"
    json5Parse := fun d =>
      if d == "oops" then .error "invalid character" else .ok 7
    importMod := fun r =>
      if r == "file:///proj/throw.js" then .error (.errWithStack "Boom\nat stack")
      else if r == "file:///proj/nodef.mjs" then .ok none
      else .ok (some 5)
    resolvePath := fun c p =>
      if p.data.head? = some '/' then p else c ++ "/" ++ p
    pathToFileURL := fun p => "file://" ++ p }

/-- Like `envW`, but no filesystem entry exists at all. -/
def envNone : Env Nat :=
  { envW with fsExists := fun _ => false }

/-- Like `envW`, but the only existing filesystem entry is the default
`.gmrc.js` location. -/
def envJsDefault : Env Nat :=
  { envW with fsExists := fun p => p == "/proj/.gmrc.js" }

/-- Like `envW`, but the only existing filesystem entry is the default
`.gmrc.cjs` location. -/
def envCjsDefault : Env Nat :=
  { envW with fsExists := fun p => p == "/proj/.gmrc.cjs" }

/-- A concrete `database` field extractor for `getDatabaseName` witnesses:
one connection string with a non-empty database, one with an empty-string
database, and `none` (null/undefined) for everything else. -/
def pgW : String → Option String := fun cs =>
  if cs == "postgres://h/mydb" then some "mydb"
  else if cs == "postgres://h/" then some ""
  else none

/-! ### Helper lemmas -/

theorem suffix_of_suffix_length_le {α : Type} {w v l : List α} (hw : w <:+ l)
    (hv : v <:+ l) (h : w.length ≤ v.length) : w <:+ v := by
  rw [← List.reverse_prefix] at hw hv ⊢
  exact List.prefix_of_prefix_length_le hw hv (by simpa using h)

theorem getSettingsFromJSON_trace {S : Type} (env : Env S) (p : String) :
    (getSettingsFromJSON env p).2 = [.loadData p] := by
  unfold getSettingsFromJSON
  split
  · rfl
  · split <;> rfl

theorem tryRequire_trace {S : Type} (env : Env S) (p : String) :
    (tryRequire env p).2 = [.loadDyn (refOf env p)] := by
  unfold tryRequire
  split <;> rfl

theorem replaceNewlines_count (s : String) :
    (replaceNewlines s).data.count '\n' = s.data.count '\n' := by
  show ((s.data.flatMap fun c =>
      if c = '\n' then ['\n', ' ', ' ', ' ', ' '] else [c]).count '\n')
    = s.data.count '\n'
  induction s.data with
  | nil => rfl
  | cons c cs ih =>
    by_cases h : c = '\n' <;> simp [h, List.count_cons, ih, List.count_append]

theorem replaceNewlines_append_newline (s₁ s₂ : String) :
    replaceNewlines (s₁ ++ "\n" ++ s₂) =
      replaceNewlines s₁ ++ "\n    " ++ replaceNewlines s₂ := by
  apply String.ext
  simp [replaceNewlines, String.data_append, List.flatMap_append]

theorem readErrMsg_ne_parseErrMsg (p q c c' : String) :
    readErrMsg p c ≠ parseErrMsg q c' := by
  intro h
  have h2 := congrArg (fun s => s.data.get? 10) h
  simp [readErrMsg, parseErrMsg, String.data_append] at h2

theorem suffix_resolve {α : Type} {l v w : List α} (hv : v <:+ l) (hw : w <:+ l) :
    v = w.drop (w.length - v.length) ∨ w = v.drop (v.length - w.length) := by
  rcases le_total v.length w.length with h | h
  · exact Or.inl (List.suffix_iff_eq_drop.1 (suffix_of_suffix_length_le hv hw h))
  · exact Or.inr (List.suffix_iff_eq_drop.1 (suffix_of_suffix_length_le hw hv h))

theorem variant_excludes {cf v suf : String} (chk : String)
    (hmap : v.data.map Char.toLower = suf.data)
    (hne : v ≠ suf)
    (hsuf : v.data <:+ cf.data)
    (hA : chk.data.map Char.toLower ≠
        suf.data.drop (suf.data.length - chk.data.length) ∨ chk = suf)
    (hB : suf.data ≠
        (chk.data.map Char.toLower).drop (chk.data.length - suf.data.length) ∨ chk = suf) :
    jsEndsWith cf chk = false := by
  rw [jsEndsWith, Bool.eq_false_iff]
  intro htrue
  rw [List.isSuffixOf_iff_suffix] at htrue
  have hlen : v.data.length = suf.data.length := by
    simpa using congrArg List.length hmap
  rcases suffix_resolve htrue hsuf with hc | hc
  · rcases hA with hA | rfl
    · have hstar := congrArg (List.map Char.toLower) hc
      rw [List.map_drop, hmap, hlen] at hstar
      exact hA hstar
    · have h0 : v.data.length - chk.data.length = 0 := by omega
      rw [h0, List.drop_zero] at hc
      exact hne (String.ext hc.symm)
  · rcases hB with hB | rfl
    · have hstar := congrArg (List.map Char.toLower) hc
      rw [List.map_drop, hmap, hlen] at hstar
      exact hB hstar
    · have h0 : chk.data.length - v.data.length = 0 := by omega
      rw [h0, List.drop_zero] at hc
      exact hne (String.ext hc)

theorem upperVariant_not_codeSuffixed {cf v : String}
    (hv : upperVariantOf v ".js" ∨ upperVariantOf v ".cjs" ∨ upperVariantOf v ".mjs")
    (hsuf : jsEndsWith cf v = true) : codeSuffixed cf = false := by
  rw [jsEndsWith, List.isSuffixOf_iff_suffix] at hsuf
  rcases hv with ⟨hmap, hne⟩ | ⟨hmap, hne⟩ | ⟨hmap, hne⟩ <;>
    rw [codeSuffixed] <;>
    rw [variant_excludes ".js" hmap hne hsuf
          (by first | exact Or.inr rfl | exact Or.inl (by decide))
          (by first | exact Or.inr rfl | exact Or.inl (by decide)),
        variant_excludes ".cjs" hmap hne hsuf
          (by first | exact Or.inr rfl | exact Or.inl (by decide))
          (by first | exact Or.inr rfl | exact Or.inl (by decide)),
        variant_excludes ".mjs" hmap hne hsuf
          (by first | exact Or.inr rfl | exact Or.inl (by decide))
          (by first | exact Or.inr rfl | exact Or.inl (by decide))] <;>
    rfl

/-! ### Claims -/

/-- C3: for every explicit `configFile` whose existence probe is false,
`getSettings` fails immediately with a `ResolutionError` whose message is
exactly `Failed to import '<configFile>': file not found` (naming the
caller-supplied path), and no loader is invoked: the trace is the single
probe, with no load event. This holds for every path, in particular for
paths with a code-style suffix and for data-style paths (which still get the
word "import" in the message). -/
theorem claim_C3 {S : Type} (env : Env S) (cf : String)
    (h : env.fsExists cf = false) :
    getSettings env (some cf) =
      (.error ("Failed to import '" ++ cf ++ "': file not found"),
       [.probe cf]) ∧
    (getSettings env (some cf)).2.filter isLoad = [] := by
  constructor
  · simp [getSettings, h, notFoundMsg]
  · simp [getSettings, h, isLoad]

/-- Witness for C3 at concrete inputs: a non-existent path with a code-style
suffix and a non-existent data-style path. -/
theorem claim_C3_witness :
    getSettings envW (some "missing.js") =
      (.error "Failed to import 'missing.js': file not found",
       [.probe "missing.js"]) ∧
    getSettings envW (some "absent") =
      (.error "Failed to import 'absent': file not found",
       [.probe "absent"]) :=
  ⟨((claim_C3 envW "missing.js" rfl).1.trans rfl),
   ((claim_C3 envW "absent" rfl).1.trans rfl)⟩

/-- C6: for every path, `getSettingsFromJSON` fails with message exactly
`Failed to read '<path>': <cause>` when the file cannot be read, fails with
message exactly `Failed to parse '<path>': <cause>` when the content is not
valid relaxed JSON, and on success returns the parsed value unchanged with no
schema checking; the two failure message templates are textually
distinguishable for all paths and causes. -/
theorem claim_C6 {S : Type} (env : Env S) (path : String) :
    (∀ e, env.readFile path = .error e →
      (getSettingsFromJSON env path).1 =
        .error ("Failed to read '" ++ path ++ "': " ++ e)) ∧
    (∀ d e, env.readFile path = .ok d → env.json5Parse d = .error e →
      (getSettingsFromJSON env path).1 =
        .error ("Failed to parse '" ++ path ++ "': " ++ e)) ∧
    (∀ d v, env.readFile path = .ok d → env.json5Parse d = .ok v →
      (getSettingsFromJSON env path).1 = .ok v) ∧
    (∀ p q c c', readErrMsg p c ≠ parseErrMsg q c') := by
  refine ⟨?_, ?_, ?_, readErrMsg_ne_parseErrMsg⟩
  · intro e h
    simp [getSettingsFromJSON, h, readErrMsg]
  · intro d e h h2
    simp [getSettingsFromJSON, h, h2, parseErrMsg]
  · intro d v h h2
    simp [getSettingsFromJSON, h, h2]

/-- Witness for C6 at concrete inputs: one unreadable path, one unparseable
path, one successful path. -/
theorem claim_C6_witness :
    (getSettingsFromJSON envW "bad").1 =
      .error "Failed to read 'bad': EACCES: denied" ∧
    (getSettingsFromJSON envW "weird").1 =
      .error "Failed to parse 'weird': invalid character" ∧
    (getSettingsFromJSON envW "good").1 = .ok 7 :=
  ⟨((claim_C6 envW "bad").1 "EACCES: denied" rfl).trans rfl,
   ((claim_C6 envW "weird").2.1 "oops" "invalid character" rfl rfl).trans rfl,
   (claim_C6 envW "good").2.2.1 "{}" 7 rfl rfl⟩

/-- C10: `getDatabaseName` errors not only when the parsed database field is
absent but also when it is the empty string; every non-empty parsed database
name is returned unchanged. -/
theorem claim_C10 (pg : String → Option String) (cs : String) :
    (pg cs = none → getDatabaseName pg cs =
      .error "Could not determine database name from connection string.") ∧
    (pg cs = some "" → getDatabaseName pg cs =
      .error "Could not determine database name from connection string.") ∧
    (∀ s, pg cs = some s → s ≠ "" → getDatabaseName pg cs = .ok s) := by
  refine ⟨?_, ?_, ?_⟩
  · intro h
    simp [getDatabaseName, h, jsFalsyStr]
  · intro h
    simp [getDatabaseName, h, jsFalsyStr]
  · intro s h hs
    simp [getDatabaseName, h, jsFalsyStr, hs]

/-- Witness for C10 at concrete inputs: absent field, empty-string field,
non-empty field. -/
theorem claim_C10_witness :
    getDatabaseName pgW "gibberish" =
      .error "Could not determine database name from connection string." ∧
    getDatabaseName pgW "postgres://h/" =
      .error "Could not determine database name from connection string." ∧
    getDatabaseName pgW "postgres://h/mydb" = .ok "mydb" :=
  ⟨(claim_C10 pgW "gibberish").1 rfl,
   (claim_C10 pgW "postgres://h/").2.1 rfl,
   (claim_C10 pgW "postgres://h/mydb").2.2 "mydb" rfl (by decide)⟩

/-- C8 as frozen states the no-config message is exactly
"No .gmrc file found; please run the init command first." — but the code's
message is "No .gmrc file found; please run \x60graphile-migrate init\x60
first.": with no explicit path and all three defaults absent, the resolver
produces the latter message, which differs from the claimed text. -/
theorem claim_C8_counterexample :
    (getSettings envNone none).1 =
      .error "No .gmrc file found; please run `graphile-migrate init` first." ∧
    "No .gmrc file found; please run `graphile-migrate init` first." ≠
      "No .gmrc file found; please run the init command first." :=
  ⟨rfl, by decide⟩

/-- C8 (amended): when no explicit configFile is given and none of the three
default locations exist, `getSettings` fails with a `ResolutionError` whose
message is exactly
"No .gmrc file found; please run \x60graphile-migrate init\x60 first." -/
theorem claim_C8 {S : Type} (env : Env S)
    (h1 : env.fsExists (DEFAULT_GMRC_PATH env.cwd) = false)
    (h2 : env.fsExists (DEFAULT_GMRCJS_PATH env.cwd) = false)
    (h3 : env.fsExists (DEFAULT_GMRC_COMMONJS_PATH env.cwd) = false) :
    (getSettings env none).1 =
      .error "No .gmrc file found; please run `graphile-migrate init` first." := by
  simp [getSettings, h1, h2, h3, noGmrcMsg]

/-- Witness for C8 (amended) at a concrete environment with no defaults. -/
theorem claim_C8_witness :
    (getSettings envNone none).1 =
      .error "No .gmrc file found; please run `graphile-migrate init` first." :=
  claim_C8 envNone rfl rfl rfl

/-- C4 as frozen states a missing default export (resolving to `undefined`)
makes `tryRequire` fail with the "Failed to import" `ResolutionError` — but
the code returns `module.default` without checking it: at a module whose
default export resolves to `undefined`, `tryRequire` succeeds and returns
`undefined` (`.ok none`), producing no error at all. -/
theorem claim_C4_counterexample :
    envW.importMod (refOf envW "nodef.mjs") = .ok none ∧
    tryRequire envW "nodef.mjs" =
      (.ok none, [.loadDyn "file:///proj/nodef.mjs"]) :=
  ⟨rfl, rfl⟩

/-- C4 (amended): a dynamically loaded module whose default export resolves
to `undefined` makes `tryRequire` succeed with `undefined`; the
"Failed to import" `ResolutionError` template is produced exactly when the
dynamic import itself throws (syntax error, runtime error during module
evaluation, file not found at import time). -/
theorem claim_C4 {S : Type} (env : Env S) (path : String) :
    (env.importMod (refOf env path) = .ok none →
      (tryRequire env path).1 = .ok none) ∧
    (∀ t, env.importMod (refOf env path) = .error t →
      (tryRequire env path).1 =
        .error ("Failed to import '" ++ refOf env path ++ "'; error:\n    "
          ++ causeText t)) := by
  constructor
  · intro h
    simp [tryRequire, h]
  · intro t h
    simp [tryRequire, h, importErrMsg]

/-- Witness for C4 (amended) at concrete inputs: a module with an undefined
default export, and a module that throws with a two-line stack (whose
newline is re-indented by four spaces in the message). -/
theorem claim_C4_witness :
    (tryRequire envW "nodef.mjs").1 = .ok none ∧
    (tryRequire envW "throw.js").1 =
      .error "Failed to import 'file:///proj/throw.js'; error:\n    Boom\n    at stack" :=
  ⟨(claim_C4 envW "nodef.mjs").1 rfl,
   ((claim_C4 envW "throw.js").2 (.errWithStack "Boom\nat stack") rfl).trans rfl⟩

/-- C1: with no explicit configFile, the three default locations are probed
in the fixed order plain `.gmrc`, then `.gmrc.js`, then `.gmrc.cjs`; the
first whose existence probe is true is the only one loaded (the plain path
with the Relaxed-Data Loader, the other two with the Dynamic Module Loader),
and once one matches no later default is probed or loaded — the trace of
each case contains exactly the probes up to the first match and that single
load event. -/
theorem claim_C1 {S : Type} (env : Env S) :
    (env.fsExists (DEFAULT_GMRC_PATH env.cwd) = true →
      getSettings env none =
        ((getSettingsFromJSON env (DEFAULT_GMRC_PATH env.cwd)).1.map some,
         [.probe (DEFAULT_GMRC_PATH env.cwd),
          .loadData (DEFAULT_GMRC_PATH env.cwd)])) ∧
    (env.fsExists (DEFAULT_GMRC_PATH env.cwd) = false →
     env.fsExists (DEFAULT_GMRCJS_PATH env.cwd) = true →
      getSettings env none =
        ((tryRequire env (DEFAULT_GMRCJS_PATH env.cwd)).1,
         [.probe (DEFAULT_GMRC_PATH env.cwd),
          .probe (DEFAULT_GMRCJS_PATH env.cwd),
          .loadDyn (refOf env (DEFAULT_GMRCJS_PATH env.cwd))])) ∧
    (env.fsExists (DEFAULT_GMRC_PATH env.cwd) = false →
     env.fsExists (DEFAULT_GMRCJS_PATH env.cwd) = false →
     env.fsExists (DEFAULT_GMRC_COMMONJS_PATH env.cwd) = true →
      getSettings env none =
        ((tryRequire env (DEFAULT_GMRC_COMMONJS_PATH env.cwd)).1,
         [.probe (DEFAULT_GMRC_PATH env.cwd),
          .probe (DEFAULT_GMRCJS_PATH env.cwd),
          .probe (DEFAULT_GMRC_COMMONJS_PATH env.cwd),
          .loadDyn (refOf env (DEFAULT_GMRC_COMMONJS_PATH env.cwd))])) := by
  refine ⟨?_, ?_, ?_⟩
  · intro h1
    simp [getSettings, h1, getSettingsFromJSON_trace]
  · intro h1 h2
    simp [getSettings, h1, h2, tryRequire_trace]
  · intro h1 h2 h3
    simp [getSettings, h1, h2, h3, tryRequire_trace]

/-- Witness for C1 at concrete environments realising each of the three
first-match cases. -/
theorem claim_C1_witness :
    getSettings envW none =
      (.ok (some 7), [.probe "/proj/.gmrc", .loadData "/proj/.gmrc"]) ∧
    getSettings envJsDefault none =
      (.ok (some 5),
       [.probe "/proj/.gmrc", .probe "/proj/.gmrc.js",
        .loadDyn "file:///proj/.gmrc.js"]) ∧
    getSettings envCjsDefault none =
      (.ok (some 5),
       [.probe "/proj/.gmrc", .probe "/proj/.gmrc.js",
        .probe "/proj/.gmrc.cjs", .loadDyn "file:///proj/.gmrc.cjs"]) :=
  by
  refine ⟨((claim_C1 envW).1 rfl).trans rfl, ?_, ?_⟩
  · rw [(claim_C1 envJsDefault).2.1 rfl rfl]
    rfl
  · rw [(claim_C1 envCjsDefault).2.2 rfl rfl rfl]
    rfl

/-- C2: for every explicit configFile that passes the existence probe, the
Dynamic Module Loader is used exactly when the path ends in one of the three
recognized code-style suffixes `.js`, `.cjs`, `.mjs`; for every other path
the Relaxed-Data Loader is used — regardless of the file's actual content,
since the environment (hence the content of every file) is universally
quantified. -/
theorem claim_C2 {S : Type} (env : Env S) (cf : String)
    (h : env.fsExists cf = true) :
    (codeSuffixed cf = true →
      getSettings env (some cf) =
        ((tryRequire env cf).1, [.probe cf, .loadDyn (refOf env cf)])) ∧
    (codeSuffixed cf = false →
      getSettings env (some cf) =
        ((getSettingsFromJSON env cf).1.map some,
         [.probe cf, .loadData cf])) := by
  constructor
  · intro hc
    simp [getSettings, h, hc, tryRequire_trace]
  · intro hc
    simp [getSettings, h, hc, getSettingsFromJSON_trace]

/-- Witness for C2 at concrete inputs: an existing `.js` path is loaded
dynamically, an existing `.json` path is loaded as data. -/
theorem claim_C2_witness :
    codeSuffixed "conf.js" = true ∧
    getSettings envW (some "conf.js") =
      (.ok (some 5), [.probe "conf.js", .loadDyn "file:///proj/conf.js"]) ∧
    codeSuffixed "conf.json" = false ∧
    getSettings envW (some "conf.json") =
      (.ok (some 7), [.probe "conf.json", .loadData "conf.json"]) :=
  ⟨rfl,
   ((claim_C2 envW "conf.js" rfl).1 rfl).trans rfl,
   rfl,
   ((claim_C2 envW "conf.json" rfl).2 rfl).trans rfl⟩

/-- C7: the Dynamic Module Loader resolves its path against the process
working directory (`resolvePath env.cwd path`) and converts it to a
`file://` reference (`pathToFileURL`), never package-name resolution; on a
thrown failure the `ResolutionError` names exactly that reference and embeds
the cause text. For a cause with a stack, the stack's newlines are each
replaced by a newline plus four spaces, preserving the multi-line form:
the newline count is preserved and each embedded newline is re-indented. -/
theorem claim_C7 {S : Type} (env : Env S) (path : String) (t : Thrown)
    (h : env.importMod (env.pathToFileURL (env.resolvePath env.cwd path)) =
      .error t) :
    tryRequire env path =
      (.error ("Failed to import '"
          ++ env.pathToFileURL (env.resolvePath env.cwd path)
          ++ "'; error:\n    " ++ causeText t),
       [.loadDyn (env.pathToFileURL (env.resolvePath env.cwd path))]) ∧
    (∀ s, causeText (.errWithStack s) = replaceNewlines s) ∧
    (∀ s, (replaceNewlines s).data.count '\n' = s.data.count '\n') ∧
    (∀ s₁ s₂, replaceNewlines (s₁ ++ "\n" ++ s₂) =
      replaceNewlines s₁ ++ "\n    " ++ replaceNewlines s₂) := by
  refine ⟨?_, fun s => rfl, replaceNewlines_count, replaceNewlines_append_newline⟩
  simp [tryRequire, refOf, importErrMsg, h]

/-- Witness for C7 at a concrete throwing import with a two-line stack. -/
theorem claim_C7_witness :
    tryRequire envW "throw.js" =
      (.error "Failed to import 'file:///proj/throw.js'; error:\n    Boom\n    at stack",
       [.loadDyn "file:///proj/throw.js"]) :=
  ((claim_C7 envW "throw.js" (.errWithStack "Boom\nat stack") rfl).1).trans rfl

/-- C9: the code-suffix classification of an explicit configFile is
case-sensitive: every path ending in an upper- or mixed-case variant of a
recognized code suffix (such as ".JS", ".Cjs", ".MJS") is classified as data
and loaded with the Relaxed-Data Loader, not the Dynamic Module Loader. -/
theorem claim_C9 {S : Type} (env : Env S) (cf v : String)
    (hv : upperVariantOf v ".js" ∨ upperVariantOf v ".cjs" ∨ upperVariantOf v ".mjs")
    (hsuf : jsEndsWith cf v = true)
    (h : env.fsExists cf = true) :
    codeSuffixed cf = false ∧
    getSettings env (some cf) =
      ((getSettingsFromJSON env cf).1.map some,
       [.probe cf, .loadData cf]) := by
  have hfalse := upperVariant_not_codeSuffixed hv hsuf
  exact ⟨hfalse, by simp [getSettings, h, hfalse, getSettingsFromJSON_trace]⟩

/-- Witness for C9 at concrete inputs covering an upper-case and two
mixed-case variants of each recognized suffix shape. -/
theorem claim_C9_witness :
    getSettings envW (some "conf.JS") =
      (.ok (some 7), [.probe "conf.JS", .loadData "conf.JS"]) ∧
    getSettings envW (some "conf.Cjs") =
      (.ok (some 7), [.probe "conf.Cjs", .loadData "conf.Cjs"]) ∧
    getSettings envW (some "conf.MJS") =
      (.ok (some 7), [.probe "conf.MJS", .loadData "conf.MJS"]) :=
  ⟨((claim_C9 envW "conf.JS" ".JS" (Or.inl ⟨by decide, by decide⟩) rfl rfl).2).trans rfl,
   ((claim_C9 envW "conf.Cjs" ".Cjs"
      (Or.inr (Or.inl ⟨by decide, by decide⟩)) rfl rfl).2).trans rfl,
   ((claim_C9 envW "conf.MJS" ".MJS"
      (Or.inr (Or.inr ⟨by decide, by decide⟩)) rfl rfl).2).trans rfl⟩

/-- C5: per call, exactly one of three outcomes holds — a single location is
loaded (at most one load event ever appears in the trace, and a successful
result implies exactly one), or the call fails; settings from two or more
locations are never merged, and with an explicit configFile no path other
than the explicit one is ever probed. -/
theorem claim_C5 {S : Type} (env : Env S) (ocf : Option String) :
    ((getSettings env ocf).2.filter isLoad).length ≤ 1 ∧
    (∀ v, (getSettings env ocf).1 = .ok v →
      ((getSettings env ocf).2.filter isLoad).length = 1) ∧
    (∀ cf, ocf = some cf → ∀ p,
      (Ev.probe p ∈ (getSettings env ocf).2 ∨
       Ev.loadData p ∈ (getSettings env ocf).2) → p = cf) ∧
    (∀ cf r, ocf = some cf → Ev.loadDyn r ∈ (getSettings env ocf).2 →
      r = refOf env cf) := by
  rcases ocf with _ | cf
  · by_cases h1 : env.fsExists (DEFAULT_GMRC_PATH env.cwd) <;>
      by_cases h2 : env.fsExists (DEFAULT_GMRCJS_PATH env.cwd) <;>
      by_cases h3 : env.fsExists (DEFAULT_GMRC_COMMONJS_PATH env.cwd) <;>
      simp [getSettings, h1, h2, h3, getSettingsFromJSON_trace,
        tryRequire_trace, isLoad]
  · by_cases h1 : env.fsExists cf <;> by_cases h2 : codeSuffixed cf <;>
      simp [getSettings, h1, h2, getSettingsFromJSON_trace,
        tryRequire_trace, isLoad]

/-- Witness for C5 at a concrete call with an explicit configFile. -/
theorem claim_C5_witness :
    ((getSettings envW (some "conf.js")).2.filter isLoad).length ≤ 1 ∧
    ((getSettings envW (some "conf.js")).2.filter isLoad).length = 1 ∧
    Ev.probe "conf.js" ∈ (getSettings envW (some "conf.js")).2 :=
  ⟨(claim_C5 envW (some "conf.js")).1,
   (claim_C5 envW (some "conf.js")).2.1 (some 5) rfl,
   by decide⟩

end Migrate
